import Mathlib

/-!
Verification of the Audio Tile Synthesis & Seamless Stitching Engine
(`src/backend/services/elevenlabs_sfx.py`, class `ElevenLabsSFXClient`).

Audio buffers (numpy float arrays) are modelled as lists of rationals.
Python `int()` on the nonnegative values that occur in this module is the
floor; numpy elementwise operations carry numpy's broadcast semantics,
including the broadcast failure on incompatible shapes, modelled with
`Except`.  Exceptions raised inside the engine are modelled as `Except.error`
values, mirroring the `try`/`except` structure of the source.
-/

namespace ElevenLabsSFX

/-- One numpy float buffer, with exact rational samples. -/
abbrev Audio := List ℚ

/-- Python `int(x)` for the nonnegative `x` that arise in this module
(`crossfade_duration * sample_rate`, `duration * sample_rate`,
`np.ceil(...)`): truncation toward zero, which on nonnegative rationals is
the floor.  (Negative durations never reach these call sites: the request
validation and the data model in the spec keep them nonnegative.) -/
def pyInt (x : ℚ) : ℕ := (⌊x⌋).toNat

/-- Python slice `a[:k]` for `k ≥ 0`. -/
def pyTake (k : ℕ) (a : Audio) : Audio := a.take k

/-- Python slice `a[-k:]`.  For `k = 0` the index `-0` is `0`, so the slice
is the whole list; for `k > 0` it is the last `k` elements (all of them when
`k` exceeds the length). -/
def pyLastN (k : ℕ) (a : Audio) : Audio :=
  if k = 0 then a else a.drop (a.length - k)

/-- Python slice `a[:-k]`.  For `k = 0` the stop index `-0` is `0`, so the
slice is empty; for `k > 0` it drops the last `k` elements. -/
def pyDropLastN (k : ℕ) (a : Audio) : Audio :=
  if k = 0 then [] else a.take (a.length - k)

/-- Python slice `a[k:-k]`: the middle of the buffer.  For `k = 0` this is
`a[0:0] = []` because `-0` is `0`. -/
def pyMidSlice (k : ℕ) (a : Audio) : Audio :=
  if k = 0 then [] else (a.drop k).take (a.length - 2 * k)

/-- numpy `np.linspace(start, stop, n)`: `n` evenly spaced points from
`start` to `stop` inclusive (for `n = 1` numpy returns `[start]`, for
`n = 0` the empty array). -/
def npLinspace (start stop : ℚ) (n : ℕ) : Audio :=
  match n with
  | 0 => []
  | 1 => [start]
  | Nat.succ (Nat.succ m) =>
    (List.range (m + 2)).map
      (fun (i : ℕ) => start + (stop - start) * (i : ℚ) / ((m : ℚ) + 1))

/-- numpy elementwise binary operation on 1-d arrays, with numpy's broadcast
rule: equal lengths operate pointwise, a length-1 operand broadcasts against
the other, and any other length mismatch raises a `ValueError`. -/
def npBroadcast (op : ℚ → ℚ → ℚ) (a b : Audio) : Except String Audio :=
  if a.length = b.length then Except.ok (List.zipWith op a b)
  else if a.length = 1 then Except.ok (b.map (fun y => op (a.headD 0) y))
  else if b.length = 1 then Except.ok (a.map (fun x => op x (b.headD 0)))
  else Except.error "operands could not be broadcast together"

/-- numpy `*` on 1-d float arrays. -/
def npMul (a b : Audio) : Except String Audio := npBroadcast (· * ·) a b

/-- numpy `+` on 1-d float arrays. -/
def npAdd (a b : Audio) : Except String Audio := npBroadcast (· + ·) a b

/-- API limit `self.max_duration_per_request` (line 69). -/
def max_duration_per_request : ℚ := 22

/-- Validation bound `self.min_duration` (line 70). -/
def min_duration : ℚ := 1

/-- Validation bound `self.max_duration` (line 71). -/
def max_duration : ℚ := 300

/-- Method `_create_crossfade` (lines 216-243): blend the tail of `audio1`
into the head of `audio2` with linear fades, or plain-concatenate when
either segment is shorter than `crossfade_samples`. -/
def _create_crossfade (audio1 audio2 : Audio) (crossfade_duration : ℚ)
    (sample_rate : ℕ) : Except String Audio :=
  let crossfade_samples := pyInt (crossfade_duration * sample_rate)
  if audio1.length < crossfade_samples ∨ audio2.length < crossfade_samples then
    Except.ok (audio1 ++ audio2)
  else
    let fade_out := npLinspace 1 0 crossfade_samples
    let fade_in := npLinspace 0 1 crossfade_samples
    match npMul (pyLastN crossfade_samples audio1) fade_out with
    | Except.error e => Except.error e
    | Except.ok audio1_faded =>
      match npMul (pyTake crossfade_samples audio2) fade_in with
      | Except.error e => Except.error e
      | Except.ok audio2_faded =>
        match npAdd audio1_faded audio2_faded with
        | Except.error e => Except.error e
        | Except.ok crossfaded =>
          Except.ok (pyDropLastN crossfade_samples audio1 ++ crossfaded ++
            audio2.drop crossfade_samples)

/-- Loop body of `_stitch_tiles` (lines 258-264): `result` is the
accumulated buffer, `i` the 1-based enumeration index, `n` the total number
of tiles and `first` is `tiles[0]`; when `loopable` and `i == n - 1` the
partner of the final merge is `tiles[0]`, not the current tile. -/
def stitchAux (crossfade_duration : ℚ) (sample_rate : ℕ) (loopable : Bool)
    (first : Audio) (n : ℕ) :
    Audio → ℕ → List Audio → Except String Audio
  | result, _, [] => Except.ok result
  | result, i, tile :: rest =>
    match _create_crossfade result
        (if loopable = true ∧ i = n - 1 then first else tile)
        crossfade_duration sample_rate with
    | Except.error e => Except.error e
    | Except.ok result2 =>
      stitchAux crossfade_duration sample_rate loopable first n result2 (i + 1) rest

/-- Method `_stitch_tiles` (lines 245-266). -/
def _stitch_tiles (tiles : List Audio) (crossfade_duration : ℚ)
    (sample_rate : ℕ) (loopable : Bool) : Except String Audio :=
  match tiles with
  | [] => Except.ok []
  | [t] => Except.ok t
  | t0 :: t1 :: rest =>
    stitchAux crossfade_duration sample_rate loopable t0 (rest.length + 2)
      t0 1 (t1 :: rest)

/-- Method `_make_loopable` (lines 268-291): blend the first and last
`crossfade_samples` of the buffer into one segment placed at the start,
followed by the untouched middle; a buffer shorter than
`2 * crossfade_samples` is returned unchanged. -/
def _make_loopable (audio : Audio) (crossfade_duration : ℚ)
    (sample_rate : ℕ) : Except String Audio :=
  let crossfade_samples := pyInt (crossfade_duration * sample_rate)
  if audio.length < crossfade_samples * 2 then
    Except.ok audio
  else
    let fade_out := npLinspace 1 0 crossfade_samples
    let fade_in := npLinspace 0 1 crossfade_samples
    match npMul (pyTake crossfade_samples audio) fade_in with
    | Except.error e => Except.error e
    | Except.ok audio_start =>
      match npMul (pyLastN crossfade_samples audio) fade_out with
      | Except.error e => Except.error e
      | Except.ok audio_end =>
        match npAdd audio_start audio_end with
        | Except.error e => Except.error e
        | Except.ok blended =>
          Except.ok (blended ++ pyMidSlice crossfade_samples audio)

/-- Duration enforcement (lines 390-397): truncate the buffer when it is
longer than `target_samples`, right-pad with zero samples when shorter. -/
def enforceDuration (audio : Audio) (target_samples : ℕ) : Audio :=
  if target_samples < audio.length then audio.take target_samples
  else if audio.length < target_samples then
    audio ++ List.replicate (target_samples - audio.length) 0
  else audio

/-- Tile count (line 349): `int(np.ceil(duration / max_duration_per_request))`. -/
def tilesNeeded (duration : ℚ) : ℕ :=
  (⌈duration / max_duration_per_request⌉).toNat

/-- Per-tile duration (line 350): `duration / tiles_needed` (equal split). -/
def tileDuration (duration : ℚ) : ℚ :=
  duration / (tilesNeeded duration : ℚ)

/-- Dataclass `SFXGenerationRequest` (lines 27-37), with the source's field
defaults. -/
structure SFXGenerationRequest where
  prompt : String
  duration : ℚ
  seed : Option ℤ := none
  loopable : Bool := false
  crossfade_duration : ℚ := 1 / 2
  output_format : String := "wav"
  sample_rate : ℕ := 48000
  bit_depth : ℕ := 24
deriving DecidableEq, Repr

/-- Dataclass `SFXGenerationResult` (lines 40-53).  Audio bytes are
represented by their decoded sample content (the temp-file round trip
through soundfile in `_save_audio` is a deterministic encoding of the float
buffer); `file_path` (a fresh temp-file name) and the wall-clock
`generation_time` are environment noise outside the shallow embedding and
are carried as constants. -/
structure SFXGenerationResult where
  success : Bool
  audio_data : Option Audio := none
  duration : ℚ := 0
  sample_rate : ℕ := 48000
  bit_depth : ℕ := 24
  format : String := "wav"
  generation_time : ℚ := 0
  tiles_generated : ℕ := 0
  seed_used : Option ℤ := none
  error_message : Option String := none
deriving DecidableEq, Repr

/-- Cache key produced by `_generate_cache_key` (lines 80-95): the file name
is `sfx_<md5 of the sorted-keys JSON of seven request fields>.<output_format>`.
The md5 of the canonical JSON is modelled by the hashed tuple itself
(collision-freeness of the fingerprint), together with the `output_format`
carried in the file-name suffix. -/
structure CacheKey where
  prompt : String
  duration : ℚ
  seed : Option ℤ
  loopable : Bool
  crossfade_duration : ℚ
  sample_rate : ℕ
  bit_depth : ℕ
  output_format : String
deriving DecidableEq, Repr

/-- Method `_generate_cache_key` (lines 80-95). -/
def _generate_cache_key (request : SFXGenerationRequest) : CacheKey :=
  { prompt := request.prompt
    duration := request.duration
    seed := request.seed
    loopable := request.loopable
    crossfade_duration := request.crossfade_duration
    sample_rate := request.sample_rate
    bit_depth := request.bit_depth
    output_format := request.output_format }

/-- On-disk payload of one cache entry: the audio file plus the metadata
JSON written by `_cache_result` (lines 143-151; the `cached_at` wall-clock
timestamp is not modelled). -/
structure CacheEntry where
  audio : Audio
  duration : ℚ
  sample_rate : ℕ
  bit_depth : ℕ
  generation_time : ℚ
  tiles_generated : ℕ
  seed_used : Option ℤ
deriving DecidableEq, Repr

/-- The cache directory, as a finite map from cache key to entry. -/
abbrev Cache := List (CacheKey × CacheEntry)

/-- File-existence check plus read: first entry stored under the key. -/
def cacheLookup (cache : Cache) (key : CacheKey) : Option CacheEntry :=
  match cache with
  | [] => none
  | (k, e) :: rest => if k = key then some e else cacheLookup rest key

/-- Writing the audio and metadata files overwrites any previous entry for
the same key. -/
def cacheInsert (cache : Cache) (key : CacheKey) (entry : CacheEntry) : Cache :=
  (key, entry) :: cache

/-- Body of `_get_cached_result` once the cache file exists (lines 104-128).
Line 124 evaluates `request.output_format`, but `request` is not a name
bound in `_get_cached_result` (its parameters are `self` and `cache_key`
only, and no module-level `request` exists), so Python raises `NameError`
while building the `SFXGenerationResult` and never returns it. -/
def getCachedResultBody (_entry : CacheEntry) : Except String SFXGenerationResult :=
  Except.error "NameError: name 'request' is not defined"

/-- Method `_get_cached_result` (lines 97-131): missing file gives `None`;
otherwise the body runs under `try`/`except Exception`, which catches the
`NameError` from line 124, logs a warning and returns `None`.  Hence every
lookup misses. -/
def _get_cached_result (cache : Cache) (cache_key : CacheKey) :
    Option SFXGenerationResult :=
  match cacheLookup cache cache_key with
  | none => none
  | some entry =>
    match getCachedResultBody entry with
    | Except.ok r => some r
    | Except.error _ => none

/-- Method `_cache_result` (lines 133-159): write the audio bytes and the
metadata JSON under the key.  Its own `try`/`except` makes a write failure
(such as `audio_data` being `None`) a logged no-op. -/
def _cache_result (result : SFXGenerationResult) (cache_key : CacheKey)
    (cache : Cache) : Cache :=
  match result.audio_data with
  | none => cache
  | some audio =>
    cacheInsert cache cache_key
      { audio := audio
        duration := result.duration
        sample_rate := result.sample_rate
        bit_depth := result.bit_depth
        generation_time := result.generation_time
        tiles_generated := result.tiles_generated
        seed_used := result.seed_used }

/-- The two external collaborators invoked per tile: the ElevenLabs POST
inside `_generate_sfx_tile` (lines 179-196, returning raw container bytes
or raising) and the librosa decode/resample/normalize in
`_process_audio_tile` (lines 198-214, returning the normalized float
buffer or raising). -/
structure Env where
  genTile : String → ℚ → Option ℤ → Except String (List ℕ)
  processTile : List ℕ → ℕ → Except String Audio

/-- One Provider Port invocation as observable at the API boundary:
`_generate_sfx_tile` sends `prompt`, `min(duration, max_duration_per_request)`
(line 172) and the optional `seed` (lines 176-177). -/
structure ProviderCall where
  prompt : String
  duration : ℚ
  seed : Option ℤ
deriving DecidableEq, Repr

/-- The tile loop of `generate_sfx` (lines 355-371), started at absolute
index `i` with `r` tiles remaining: each round derives
`tile_seed = seed + index` when a seed is present (line 358), invokes the
provider, then the normalizer, and fail-fast aborts on the first error.
The second component records the provider calls actually issued, in order. -/
def generateTilesAux (env : Env) (prompt : String) (tile_duration : ℚ)
    (seed : Option ℤ) (sample_rate : ℕ) :
    ℕ → ℕ → Except String (List Audio) × List ProviderCall
  | _, 0 => (Except.ok [], [])
  | i, Nat.succ r =>
    let tile_seed := seed.map (fun s => s + (i : ℤ))
    let payload_duration := min tile_duration max_duration_per_request
    let call : ProviderCall :=
      { prompt := prompt, duration := payload_duration, seed := tile_seed }
    match env.genTile prompt payload_duration tile_seed with
    | Except.error e => (Except.error e, [call])
    | Except.ok raw =>
      match env.processTile raw sample_rate with
      | Except.error e => (Except.error e, [call])
      | Except.ok tile =>
        let (rest, calls) :=
          generateTilesAux env prompt tile_duration seed sample_rate (i + 1) r
        (rest.map (fun tiles => tile :: tiles), call :: calls)

/-- The per-tile loop-wrapping pass of lines 375-380: when
`request.loopable` is set, every tile is individually passed through
`_make_loopable` before stitching. -/
def mapLoopable : List Audio → ℚ → ℕ → Except String (List Audio)
  | [], _, _ => Except.ok []
  | t :: rest, cf, sr =>
    match _make_loopable t cf sr with
    | Except.error e => Except.error e
    | Except.ok t2 =>
      match mapLoopable rest cf sr with
      | Except.error e => Except.error e
      | Except.ok ts => Except.ok (t2 :: ts)

/-- The `try` block of `generate_sfx` (lines 347-430) together with its
`except` clause (lines 439-444): plan the tiles, generate and normalize
them fail-fast, optionally loop-wrap each tile (lines 374-380), stitch
(lines 383-388), enforce the exact target sample count
`int(duration * sample_rate)` (lines 390-397), and package the result;
any raised error becomes a `success=False` result with the error text. -/
def generateCore (env : Env) (request : SFXGenerationRequest) :
    SFXGenerationResult × List ProviderCall :=
  let tiles_needed := tilesNeeded request.duration
  let tile_duration := tileDuration request.duration
  match generateTilesAux env request.prompt tile_duration request.seed
      request.sample_rate 0 tiles_needed with
  | (Except.error e, calls) =>
    ({ success := false, error_message := some e }, calls)
  | (Except.ok tiles0, calls) =>
    let wrapped :=
      if request.loopable then
        mapLoopable tiles0 request.crossfade_duration request.sample_rate
      else Except.ok tiles0
    match wrapped with
    | Except.error e => ({ success := false, error_message := some e }, calls)
    | Except.ok tiles =>
      match _stitch_tiles tiles request.crossfade_duration request.sample_rate
          request.loopable with
      | Except.error e => ({ success := false, error_message := some e }, calls)
      | Except.ok stitched =>
        let target_samples := pyInt (request.duration * request.sample_rate)
        let final_audio := enforceDuration stitched target_samples
        ({ success := true
           audio_data := some final_audio
           duration := request.duration
           sample_rate := request.sample_rate
           bit_depth := request.bit_depth
           format := request.output_format
           generation_time := 0
           tiles_generated := tiles_needed
           seed_used := request.seed
           error_message := none }, calls)

/-- Method `generate_sfx` (lines 312-444).  Returns the structured result,
the cache directory after the call, and the ordered list of Provider Port
invocations the call issued.  Validation (lines 326-337) runs before the
cache probe (lines 339-345), which runs before any provider traffic; the
result of a fresh synthesis is written back to the cache only on success
(lines 432-434). -/
def generate_sfx (env : Env) (request : SFXGenerationRequest)
    (use_cache : Bool) (cache : Cache) :
    SFXGenerationResult × Cache × List ProviderCall :=
  if request.duration < min_duration then
    ({ success := false
       error_message := some "Duration must be at least 1.0 seconds" },
      cache, [])
  else if max_duration < request.duration then
    ({ success := false
       error_message := some "Duration cannot exceed 300.0 seconds" },
      cache, [])
  else
    let cache_key := _generate_cache_key request
    match (if use_cache then _get_cached_result cache cache_key else none) with
    | some cached => (cached, cache, [])
    | none =>
      let (result, calls) := generateCore env request
      let cache2 :=
        if use_cache && result.success then _cache_result result cache_key cache
        else cache
      (result, cache2, calls)

/-- Left-to-right accumulation of crossfades over the remaining tiles, used
by the spec-side stitcher below. -/
def specGo (crossfade_duration : ℚ) (sample_rate : ℕ) :
    Audio → List Audio → Except String Audio
  | acc, [] => Except.ok acc
  | acc, t :: rest =>
    match _create_crossfade acc t crossfade_duration sample_rate with
    | Except.error e => Except.error e
    | Except.ok acc2 => specGo crossfade_duration sample_rate acc2 rest

/-- Modelled from the spec (§4.4 Crossfade Stitcher), for the refinement
part of the ordering claim: merge the tiles strictly in planner index
order, for each adjacent pair left-to-right, every merge being a single
`_create_crossfade` of the accumulated buffer with the next tile. -/
def specStitchInOrder (tiles : List Audio) (crossfade_duration : ℚ)
    (sample_rate : ℕ) : Except String Audio :=
  match tiles with
  | [] => Except.ok []
  | t0 :: rest => specGo crossfade_duration sample_rate t0 rest

/-- Decidable success test on an engine step result. -/
def isOkB : Except String Audio → Bool
  | Except.ok _ => true
  | Except.error _ => false

/-- One full tile round as the engine runs it: the provider call of
`_generate_sfx_tile` followed by the normalization of
`_process_audio_tile`. -/
def callRun (env : Env) (sample_rate : ℕ) (c : ProviderCall) :
    Except String Audio :=
  match env.genTile c.prompt c.duration c.seed with
  | Except.error e => Except.error e
  | Except.ok raw => env.processTile raw sample_rate

/-- The provider call the engine issues for planned tile `i` of a request:
prompt, `min(per-tile duration, provider ceiling)` and seed `seed + i` when
a seed is present. -/
def plannedCall (request : SFXGenerationRequest) (i : ℕ) : ProviderCall :=
  { prompt := request.prompt
    duration := min (tileDuration request.duration) max_duration_per_request
    seed := request.seed.map (fun s => s + (i : ℤ)) }

/-- Deterministic provider stub: every tile request returns the same three
raw bytes; the normalizer stub decodes them as three samples. -/
def stubEnv : Env :=
  { genTile := fun _ _ _ => Except.ok [1, 2, 3]
    processTile := fun raw _ => Except.ok (raw.map (fun b => (b : ℚ))) }

/-- Provider stub that fails exactly on the tile whose derived seed is 43
(tile index 1 of a request with seed 42), used to exercise fail-fast
abortion. -/
def failSecondEnv : Env :=
  { genTile := fun _ _ s =>
      if s = some 43 then Except.error "ElevenLabs API error 400: boom"
      else Except.ok [1, 2]
    processTile := fun raw _ => Except.ok (raw.map (fun b => (b : ℚ))) }

/-- A small valid request (2 seconds at a 4 Hz working rate so concrete
buffers stay tiny). -/
def demoRequest : SFXGenerationRequest :=
  { prompt := "rain", duration := 2, seed := some 42,
    crossfade_duration := 1 / 2, sample_rate := 4 }

/-- A request whose prompt is empty but whose duration is valid. -/
def emptyPromptRequest : SFXGenerationRequest :=
  { prompt := "", duration := 2, seed := none,
    crossfade_duration := 1 / 2, sample_rate := 4 }

/-- A request whose duration times sample rate has fractional part 3/5, so
truncation and rounding disagree on the target sample count. -/
def fractionalRequest : SFXGenerationRequest :=
  { prompt := "x", duration := 7 / 5, seed := some 1,
    crossfade_duration := 1 / 2, sample_rate := 4 }

/-- A 30-second request: two planned tiles. -/
def twoTileRequest : SFXGenerationRequest :=
  { prompt := "wind", duration := 30, seed := some 42,
    crossfade_duration := 1 / 2, sample_rate := 4 }

/-- The loopable-mode pipeline order actually implemented (for the amended
ordering claim): every generated tile is loop-wrapped individually first
(lines 374-380), and only then does stitching run (lines 383-388) with the
loopable flag set, followed by duration enforcement; on any error the
request carries no audio. -/
def loopModePipeline (env : Env) (request : SFXGenerationRequest) :
    Option Audio :=
  match (generateTilesAux env request.prompt (tileDuration request.duration)
      request.seed request.sample_rate 0 (tilesNeeded request.duration)).1 with
  | Except.error _ => none
  | Except.ok tiles =>
    match mapLoopable tiles request.crossfade_duration request.sample_rate with
    | Except.error _ => none
    | Except.ok wrapped =>
      match _stitch_tiles wrapped request.crossfade_duration
          request.sample_rate true with
      | Except.error _ => none
      | Except.ok stitched =>
        some (enforceDuration stitched
          (pyInt (request.duration * request.sample_rate)))

end ElevenLabsSFX

deriving instance DecidableEq for Except

unseal Rat.mul Rat.inv Rat.add Rat.sub

namespace ElevenLabsSFX

theorem get_cached_result_none (cache : Cache) (key : CacheKey) :
    _get_cached_result cache key = none := by
  unfold _get_cached_result
  cases cacheLookup cache key <;> rfl

theorem enforceDuration_length (audio : Audio) (t : ℕ) :
    (enforceDuration audio t).length = t := by
  unfold enforceDuration
  split
  · rename_i h
    simp only [List.length_take]
    omega
  · split
    · rename_i h h2
      simp only [List.length_append, List.length_replicate]
      omega
    · rename_i h h2
      omega

theorem generate_sfx_eq_core (env : Env) (request : SFXGenerationRequest)
    (use_cache : Bool) (cache : Cache)
    (h1 : ¬ request.duration < min_duration)
    (h2 : ¬ max_duration < request.duration) :
    generate_sfx env request use_cache cache =
      ((generateCore env request).1,
        (if use_cache && (generateCore env request).1.success then
          _cache_result (generateCore env request).1
            (_generate_cache_key request) cache
        else cache),
        (generateCore env request).2) := by
  unfold generate_sfx
  rw [if_neg h1, if_neg h2]
  simp only [get_cached_result_none, ite_self]

/-- C10: the implicit stitcher edge cases hold as stated: stitching the
empty tile sequence returns the empty buffer, and stitching exactly one
tile returns that tile unchanged with no crossfade applied and no error
raised, for every crossfade duration, sample rate and loopable flag
(`_stitch_tiles`, lines 248-252, returns before any crossfade work). -/
theorem stitch_tiles_edge_cases (crossfade_duration : ℚ) (sample_rate : ℕ)
    (loopable : Bool) :
    _stitch_tiles [] crossfade_duration sample_rate loopable = Except.ok [] ∧
    ∀ t : Audio, _stitch_tiles [t] crossfade_duration sample_rate loopable
      = Except.ok t :=
  ⟨rfl, fun _ => rfl⟩

/-- C1 (the claim is right, the code is wrong): two calls of `generate_sfx`
with the identical request and `use_cache = true` issue one Provider Port
call each — two in total, not one — although the first call did write a
cache entry.  Line 124 of `_get_cached_result` evaluates
`request.output_format` where no name `request` is bound, so every cache
hit raises `NameError`, which the `except Exception` handler turns into
`None`, and the second call re-synthesizes.  The repo's own test
`test_cache_set_and_get` (test_sfx_client.py, lines 88-123) asserts the
cached result is returned, which this defect makes impossible. -/
theorem cache_lookup_never_hits :
    (generate_sfx stubEnv demoRequest true []).2.1.length = 1 ∧
    (generate_sfx stubEnv demoRequest true []).2.2.length = 1 ∧
    (generate_sfx stubEnv demoRequest true
      (generate_sfx stubEnv demoRequest true []).2.1).2.2.length = 1 := by
  decide

/-- C3 counterexample: a request with an empty prompt and a valid duration
is not rejected — the engine performs a provider call and returns
`success = true`, while the claim requires a failure result before any
I/O.  The source (lines 326-337) validates only the duration and never
inspects `prompt`. -/
theorem empty_prompt_not_rejected :
    (generate_sfx stubEnv emptyPromptRequest true []).1.success = true ∧
    (generate_sfx stubEnv emptyPromptRequest true []).2.2.length = 1 := by
  decide

/-- C3 amended: only the duration is validated.  For every request whose
duration is below 1.0 or above 300.0 seconds, `generate_sfx` returns a
failure result (success = false, with an error message and no audio)
before performing any I/O — no provider call is issued and the cache is
unchanged; in particular duration = 0.9 and duration = 300.1 are both
rejected.  An empty prompt is not rejected. -/
theorem validation_rejects_duration_before_io (env : Env)
    (request : SFXGenerationRequest) (use_cache : Bool) (cache : Cache)
    (h : request.duration < 1 ∨ 300 < request.duration) :
    (generate_sfx env request use_cache cache).1.success = false ∧
    ((generate_sfx env request use_cache cache).1.error_message).isSome = true ∧
    (generate_sfx env request use_cache cache).1.audio_data = none ∧
    (generate_sfx env request use_cache cache).2.1 = cache ∧
    (generate_sfx env request use_cache cache).2.2 = [] := by
  unfold generate_sfx
  rcases h with h | h
  · rw [if_pos (show request.duration < min_duration from h)]
    exact ⟨rfl, rfl, rfl, rfl, rfl⟩
  · have h1 : ¬ request.duration < min_duration := by
      unfold min_duration
      linarith
    rw [if_neg h1, if_pos (show max_duration < request.duration from h)]
    exact ⟨rfl, rfl, rfl, rfl, rfl⟩

/-- Witness for the amended C3 theorem at the claim's two boundary inputs,
durations 0.9 and 300.1. -/
theorem validation_rejects_duration_before_io_witness :
    ((9 : ℚ)/10 < 1 ∨ 300 < (9 : ℚ)/10) ∧
    (generate_sfx stubEnv { prompt := "rain", duration := 9/10 } true
      []).1.success = false ∧
    (generate_sfx stubEnv { prompt := "rain", duration := 3001/10 } true
      []).2.2 = [] := by
  refine ⟨Or.inl (by norm_num), ?_, ?_⟩
  · exact (validation_rejects_duration_before_io stubEnv
      { prompt := "rain", duration := 9/10 } true [] (Or.inl (by norm_num))).1
  · exact (validation_rejects_duration_before_io stubEnv
      { prompt := "rain", duration := 3001/10 } true []
      (Or.inr (by norm_num))).2.2.2.2

/-- C7: the engine introduces no nondeterminism of its own — for every
request carrying a seed, the audio produced by `generate_sfx` depends only
on the request fields and the (deterministic) provider environment; in
particular two invocations with identical request fields against a cold
cache (indeed against any caches and cache modes) produce identical output
audio. -/
theorem synthesis_deterministic (env : Env) (request : SFXGenerationRequest)
    (use_cache1 use_cache2 : Bool) (cache1 cache2 : Cache)
    (_h : request.seed.isSome = true) :
    (generate_sfx env request use_cache1 cache1).1.audio_data =
    (generate_sfx env request use_cache2 cache2).1.audio_data := by
  by_cases h1 : request.duration < min_duration
  · unfold generate_sfx
    rw [if_pos h1, if_pos h1]
  · by_cases h2 : max_duration < request.duration
    · unfold generate_sfx
      rw [if_neg h1, if_neg h1, if_pos h2, if_pos h2]
    · rw [generate_sfx_eq_core env request use_cache1 cache1 h1 h2,
        generate_sfx_eq_core env request use_cache2 cache2 h1 h2]

theorem stitchAux_false_eq_specGo (crossfade_duration : ℚ) (sample_rate : ℕ)
    (first : Audio) (n : ℕ) :
    ∀ (l : List Audio) (acc : Audio) (i : ℕ),
      stitchAux crossfade_duration sample_rate false first n acc i l =
      specGo crossfade_duration sample_rate acc l := by
  intro l
  induction l with
  | nil =>
    intro acc i
    rfl
  | cons t rest ih =>
    intro acc i
    unfold stitchAux specGo
    rw [if_neg (by simp)]
    cases h : _create_crossfade acc t crossfade_duration sample_rate with
    | error e => simp [h]
    | ok acc2 =>
      simp only [h]
      exact ih acc2 (i + 1)

theorem stitchAux_true_eq_specGo (crossfade_duration : ℚ) (sample_rate : ℕ)
    (first : Audio) (n : ℕ) :
    ∀ (l : List Audio) (acc : Audio) (i : ℕ), i + l.length = n → l ≠ [] →
      stitchAux crossfade_duration sample_rate true first n acc i l =
      specGo crossfade_duration sample_rate acc (l.dropLast ++ [first]) := by
  intro l
  induction l with
  | nil =>
    intro acc i hn hne
    exact absurd rfl hne
  | cons t rest ih =>
    intro acc i hn hne
    cases rest with
    | nil =>
      simp only [List.length_cons, List.length_nil] at hn
      unfold stitchAux
      rw [if_pos ⟨rfl, by omega⟩]
      cases h : _create_crossfade acc first crossfade_duration sample_rate with
      | error e => simp [specGo, h]
      | ok acc2 => simp [specGo, stitchAux, h]
    | cons t2 rest2 =>
      simp only [List.length_cons] at hn
      unfold stitchAux
      have hne2 : ¬ (true = true ∧ i = n - 1) := by
        intro hc
        obtain ⟨-, hc2⟩ := hc
        omega
      rw [if_neg hne2]
      cases h : _create_crossfade acc t crossfade_duration sample_rate with
      | error e =>
        simp only [List.dropLast_cons₂, List.cons_append, specGo, h]
      | ok acc2 =>
        have hrec := ih acc2 (i + 1)
          (by simp only [List.length_cons]; omega) (by simp)
        simp only [List.dropLast_cons₂, List.cons_append, specGo, h]
        exact hrec

/-- C2 counterexample: with loopable = true and two tiles, the stitcher
blends the accumulated buffer with tile 0 in place of the final tile
(line 261), so tile 1 is never merged at all — the code result differs
from the strict in-order merge the claim mandates, and indeed it does not
depend on tile 1's content. -/
theorem stitch_order_counterexample :
    _stitch_tiles [[1], [2]] (1/2) 48000 true = Except.ok [1, 1] ∧
    _stitch_tiles [[1], [37]] (1/2) 48000 true = Except.ok [1, 1] ∧
    specStitchInOrder [[1], [2]] (1/2) 48000 = Except.ok [1, 2] ∧
    _stitch_tiles [[1], [2]] (1/2) 48000 true ≠
      specStitchInOrder [[1], [2]] (1/2) 48000 := by
  decide

/-- C2 amended: when loopable = false the stitcher merges the normalized
tiles strictly in planner index order (it equals the left-to-right in-order
fold of crossfades); when loopable = true it merges tiles 0..N-2 in index
order and then crossfades the accumulator with tile 0 in place of the last
tile, and the loop-wrapping stage does not receive the stitched buffer:
each tile is loop-wrapped individually before stitching. -/
theorem stitch_pipeline_amended :
    (∀ (crossfade_duration : ℚ) (sample_rate : ℕ) (tiles : List Audio),
      _stitch_tiles tiles crossfade_duration sample_rate false =
      specStitchInOrder tiles crossfade_duration sample_rate) ∧
    (∀ (crossfade_duration : ℚ) (sample_rate : ℕ) (t0 : Audio)
      (rest : List Audio), rest ≠ [] →
      _stitch_tiles (t0 :: rest) crossfade_duration sample_rate true =
      specStitchInOrder (t0 :: (rest.dropLast ++ [t0])) crossfade_duration
        sample_rate) ∧
    (∀ (env : Env) (request : SFXGenerationRequest),
      request.loopable = true →
      (generateCore env request).1.audio_data = loopModePipeline env request) := by
  refine ⟨?_, ?_, ?_⟩
  · intro crossfade_duration sample_rate tiles
    cases tiles with
    | nil => rfl
    | cons t0 rest =>
      cases rest with
      | nil => rfl
      | cons t1 rest2 =>
        exact stitchAux_false_eq_specGo crossfade_duration sample_rate t0
          (rest2.length + 2) (t1 :: rest2) t0 1
  · intro crossfade_duration sample_rate t0 rest hne
    cases rest with
    | nil => exact absurd rfl hne
    | cons t1 rest2 =>
      exact stitchAux_true_eq_specGo crossfade_duration sample_rate t0
        (rest2.length + 2) (t1 :: rest2) t0 1
        (by simp only [List.length_cons]; omega) (by simp)
  · intro env request hloop
    simp only [generateCore, loopModePipeline, hloop, if_true]
    rcases hg : generateTilesAux env request.prompt
        (tileDuration request.duration) request.seed request.sample_rate 0
        (tilesNeeded request.duration) with ⟨res, calls⟩
    cases res with
    | error e => rfl
    | ok tiles =>
      dsimp only
      cases hm : mapLoopable tiles request.crossfade_duration
          request.sample_rate with
      | error e => rfl
      | ok wrapped =>
        dsimp only
        cases hs : _stitch_tiles wrapped request.crossfade_duration
            request.sample_rate true with
        | error e => rfl
        | ok stitched => rfl

/-- Witness for the amended C2 theorem: three tiles, both modes, and the
loopable-mode pipeline fact for the demo loopable request. -/
theorem stitch_pipeline_amended_witness :
    _stitch_tiles [[1], [2], [3]] (1/2) 4 false =
      specStitchInOrder [[1], [2], [3]] (1/2) 4 ∧
    _stitch_tiles [[1], [2], [3]] (1/2) 4 true =
      specStitchInOrder [[1], [2], [1]] (1/2) 4 := by
  constructor
  · exact stitch_pipeline_amended.1 (1/2) 4 [[1], [2], [3]]
  · have h := stitch_pipeline_amended.2.1 (1/2) 4 [1] [[2], [3]] (by simp)
    simpa using h

theorem generateTilesAux_calls (env : Env) (p : String) (td : ℚ)
    (s0 : Option ℤ) (sr : ℕ) :
    ∀ (r i j : ℕ), j < ((generateTilesAux env p td s0 sr i r).2).length →
      ((generateTilesAux env p td s0 sr i r).2).get? j =
        some ⟨p, min td max_duration_per_request,
          s0.map (fun s => s + ((i + j : ℕ) : ℤ))⟩ := by
  intro r
  induction r with
  | zero =>
    intro i j hj
    simp [generateTilesAux] at hj
  | succ r ih =>
    intro i j hj
    unfold generateTilesAux at hj ⊢
    cases hg : env.genTile p (min td max_duration_per_request)
        (s0.map (fun s => s + (i : ℤ))) with
    | error e =>
      simp only [hg] at hj ⊢
      simp only [List.length_cons, List.length_nil] at hj
      interval_cases j
      simp
    | ok raw =>
      cases hp : env.processTile raw sr with
      | error e =>
        simp only [hg, hp] at hj ⊢
        simp only [List.length_cons, List.length_nil] at hj
        interval_cases j
        simp
      | ok tile =>
        rcases hrec : generateTilesAux env p td s0 sr (i + 1) r with
          ⟨res2, calls2⟩
        simp only [hg, hp, hrec] at hj ⊢
        cases j with
        | zero => simp
        | succ j2 =>
          simp only [List.length_cons, Nat.succ_lt_succ_iff] at hj
          have h2 := ih (i + 1) j2 (by rw [hrec]; exact hj)
          rw [hrec] at h2
          show calls2.get? j2 = _
          rw [h2]
          have hidx : (i + 1 + j2 : ℕ) = (i + (j2 + 1) : ℕ) := by omega
          rw [hidx]

theorem generateCore_calls (env : Env) (request : SFXGenerationRequest) :
    (generateCore env request).2 =
      (generateTilesAux env request.prompt (tileDuration request.duration)
        request.seed request.sample_rate 0 (tilesNeeded request.duration)).2 := by
  simp only [generateCore]
  rcases hg : generateTilesAux env request.prompt (tileDuration request.duration)
      request.seed request.sample_rate 0 (tilesNeeded request.duration) with
    ⟨res, calls⟩
  cases res with
  | error e => rfl
  | ok tiles =>
    dsimp only
    cases hw : (if request.loopable = true then
        mapLoopable tiles request.crossfade_duration request.sample_rate
      else Except.ok tiles) with
    | error e => rfl
    | ok tiles2 =>
      dsimp only
      cases hs : _stitch_tiles tiles2 request.crossfade_duration
          request.sample_rate request.loopable with
      | error e => rfl
      | ok stitched => rfl

theorem tilesNeeded_pos (d : ℚ) (h : 1 ≤ d) : 1 ≤ tilesNeeded d := by
  unfold tilesNeeded
  have h2 : (0 : ℚ) < d / max_duration_per_request := by
    unfold max_duration_per_request
    positivity
  have h3 : (0 : ℤ) < ⌈d / max_duration_per_request⌉ := Int.ceil_pos.mpr h2
  omega

theorem tileDuration_le_ceiling (d : ℚ) (h : 1 ≤ d) :
    tileDuration d ≤ max_duration_per_request := by
  have hpos := tilesNeeded_pos d h
  have hc : (0 : ℤ) ≤ ⌈d / max_duration_per_request⌉ := by
    unfold tilesNeeded at hpos
    omega
  have hcast : ((tilesNeeded d : ℕ) : ℚ) = (⌈d / max_duration_per_request⌉ : ℚ) := by
    unfold tilesNeeded
    exact_mod_cast congrArg (Int.cast : ℤ → ℚ) (Int.toNat_of_nonneg hc)
  have hle : d / max_duration_per_request ≤ ((tilesNeeded d : ℕ) : ℚ) := by
    rw [hcast]
    exact Int.le_ceil _
  have hn : (0 : ℚ) < ((tilesNeeded d : ℕ) : ℚ) := by
    exact_mod_cast hpos
  unfold tileDuration
  rw [div_le_iff₀ hn]
  unfold max_duration_per_request at hle ⊢
  rw [div_le_iff₀ (by norm_num : (0:ℚ) < 22)] at hle
  linarith

/-- C4: tile planning.  For every valid duration the plan has
`tilesNeeded = ceil(duration / 22)` tiles of equal duration
`duration / tilesNeeded` (their durations sum back to the requested
duration and each fits under the provider ceiling, so a duration of at
most 22 yields one tile); `duration = 50` yields 3 tiles of 50/3 ≈ 16.667
seconds; and the j-th Provider Port call of a request carries seed
`requestSeed + j` when the seed is present and no seed when it is absent. -/
theorem tile_planning (d : ℚ) (h : 1 ≤ d) :
    (d ≤ 22 → tilesNeeded d = 1) ∧
    (tilesNeeded 50 = 3 ∧ tileDuration 50 = 50 / 3) ∧
    tileDuration d * (tilesNeeded d : ℚ) = d ∧
    tileDuration d ≤ 22 ∧
    (∀ (env : Env) (request : SFXGenerationRequest) (use_cache : Bool)
      (cache : Cache) (j : ℕ),
      j < ((generate_sfx env request use_cache cache).2.2).length →
      ((generate_sfx env request use_cache cache).2.2).get? j =
        some (plannedCall request j) ∧
      (1 ≤ request.duration →
        (plannedCall request j).duration = tileDuration request.duration) ∧
      (request.seed = none → (plannedCall request j).seed = none)) := by
  refine ⟨?_, ⟨by decide, by decide⟩, ?_, tileDuration_le_ceiling d h, ?_⟩
  · intro h22
    unfold tilesNeeded
    have hc : ⌈d / max_duration_per_request⌉ = 1 := by
      rw [Int.ceil_eq_iff]
      constructor
      · push_cast
        unfold max_duration_per_request
        have : (0 : ℚ) < d / 22 := by positivity
        linarith
      · unfold max_duration_per_request
        rw [div_le_iff₀ (by norm_num : (0:ℚ) < 22)]
        push_cast
        linarith
    rw [hc]
    rfl
  · unfold tileDuration
    have hn : ((tilesNeeded d : ℕ) : ℚ) ≠ 0 := by
      have := tilesNeeded_pos d h
      positivity
    field_simp
  · intro env request use_cache cache j hj
    refine ⟨?_, ?_, ?_⟩
    · by_cases h1 : request.duration < min_duration
      · rw [show (generate_sfx env request use_cache cache).2.2 = [] from by
          unfold generate_sfx; rw [if_pos h1]] at hj
        simp at hj
      · by_cases h2 : max_duration < request.duration
        · rw [show (generate_sfx env request use_cache cache).2.2 = [] from by
            unfold generate_sfx; rw [if_neg h1, if_pos h2]] at hj
          simp at hj
        · have hcalls : (generate_sfx env request use_cache cache).2.2 =
              (generateTilesAux env request.prompt
                (tileDuration request.duration) request.seed
                request.sample_rate 0 (tilesNeeded request.duration)).2 := by
            rw [generate_sfx_eq_core env request use_cache cache h1 h2]
            exact generateCore_calls env request
          rw [hcalls] at hj ⊢
          rw [generateTilesAux_calls env request.prompt
            (tileDuration request.duration) request.seed request.sample_rate
            (tilesNeeded request.duration) 0 j hj]
          simp [plannedCall]
    · intro hd
      simp only [plannedCall]
      exact min_eq_left (tileDuration_le_ceiling request.duration hd)
    · intro hs
      simp [plannedCall, hs]

/-- Witness for C4 at duration 50 and, for the provider-call conjunct, the
two-tile request (duration 30, seed 42): the second call carries seed 43. -/
theorem tile_planning_witness :
    tilesNeeded 50 = 3 ∧ tileDuration 50 = 50 / 3 ∧
    (generate_sfx stubEnv twoTileRequest true []).2.2.length = 2 ∧
    ((generate_sfx stubEnv twoTileRequest true []).2.2).get? 1 =
      some (plannedCall twoTileRequest 1) ∧
    (plannedCall twoTileRequest 1).seed = some 43 := by
  have h := tile_planning 50 (by norm_num)
  refine ⟨h.2.1.1, h.2.1.2, by decide, ?_, by decide⟩
  exact (h.2.2.2.2 stubEnv twoTileRequest true [] 1 (by decide)).1

theorem generateCore_success_audio (env : Env)
    (request : SFXGenerationRequest)
    (h : (generateCore env request).1.success = true) :
    ∃ a : Audio, (generateCore env request).1.audio_data = some a ∧
      a.length = pyInt (request.duration * request.sample_rate) := by
  simp only [generateCore] at h ⊢
  split at h
  · simp at h
  · split at h
    · simp at h
    · split at h
      · simp at h
      · exact ⟨_, rfl, enforceDuration_length _ _⟩

/-- C5 counterexample: the duration enforcer's target sample count is the
Python truncation `int(duration * sample_rate)` (line 391), not
`round(duration * sample_rate)` as the claim states: at duration 1.4 s and
sample rate 4 the product is 5.6, the code produces exactly 5 samples while
the claim's formula demands 6. -/
theorem duration_target_uses_truncation :
    round ((7/5 : ℚ) * 4) = (6 : ℤ) ∧
    pyInt ((7/5 : ℚ) * 4) = 5 ∧
    (generate_sfx stubEnv fractionalRequest false []).1.success = true ∧
    (((generate_sfx stubEnv fractionalRequest false
      []).1.audio_data).getD []).length = 5 := by
  decide

/-- C5 amended: duration exactness with truncation.  Every successful
result's waveform has exactly `targetSamples = floor(duration * sampleRate)`
samples (Python `int()` truncates; on these nonnegative products that is
the floor, which can differ from rounding): the enforcer truncates the tail
when the stitched buffer is longer than `targetSamples` and right-pads with
zero samples when it is shorter, and for a positive sample rate the sample
count divided by the sample rate equals the requested duration to within
one sample. -/
theorem duration_exactness (env : Env) (request : SFXGenerationRequest)
    (use_cache : Bool) (cache : Cache)
    (h : (generate_sfx env request use_cache cache).1.success = true) :
    ∃ a : Audio,
      (generate_sfx env request use_cache cache).1.audio_data = some a ∧
      a.length = pyInt (request.duration * request.sample_rate) ∧
      (1 ≤ request.sample_rate →
        |(a.length : ℚ) / (request.sample_rate : ℚ) - request.duration| <
          1 / (request.sample_rate : ℚ)) := by
  by_cases h1 : request.duration < min_duration
  · rw [show (generate_sfx env request use_cache cache).1.success = false from
      by unfold generate_sfx; rw [if_pos h1]] at h
    simp at h
  · by_cases h2 : max_duration < request.duration
    · rw [show (generate_sfx env request use_cache cache).1.success = false
        from by unfold generate_sfx; rw [if_neg h1, if_pos h2]] at h
      simp at h
    · rw [generate_sfx_eq_core env request use_cache cache h1 h2] at h ⊢
      obtain ⟨a, ha, hlen⟩ := generateCore_success_audio env request h
      refine ⟨a, ha, hlen, ?_⟩
      intro hsr
      have hd : (1 : ℚ) ≤ request.duration := by
        unfold min_duration at h1
        linarith [not_lt.mp h1]
      have hsr0 : (0 : ℚ) < (request.sample_rate : ℚ) := by
        exact_mod_cast hsr
      have hx0 : (0 : ℚ) ≤ request.duration * (request.sample_rate : ℚ) := by
        positivity
      have hfl : (0 : ℤ) ≤ ⌊request.duration * (request.sample_rate : ℚ)⌋ :=
        Int.floor_nonneg.mpr hx0
      have hlenq : (a.length : ℚ) =
          ((⌊request.duration * (request.sample_rate : ℚ)⌋ : ℤ) : ℚ) := by
        rw [hlen]
        unfold pyInt
        exact_mod_cast congrArg (Int.cast : ℤ → ℚ) (Int.toNat_of_nonneg hfl)
      have hsplit : (((⌊request.duration * (request.sample_rate : ℚ)⌋ : ℤ) :
            ℚ) - request.duration * (request.sample_rate : ℚ)) /
            (request.sample_rate : ℚ) =
          ((⌊request.duration * (request.sample_rate : ℚ)⌋ : ℤ) : ℚ) /
            (request.sample_rate : ℚ) - request.duration := by
        rw [sub_div, mul_div_cancel_right₀ _ (ne_of_gt hsr0)]
      rw [hlenq, ← hsplit, abs_div, abs_of_pos hsr0,
        div_lt_div_iff_of_pos_right hsr0]
      rw [abs_sub_comm, abs_of_nonneg
        (by linarith [Int.floor_le (request.duration *
          (request.sample_rate : ℚ))])]
      linarith [Int.sub_one_lt_floor (request.duration *
        (request.sample_rate : ℚ))]

/-- Witness for the amended C5 theorem: the seeded demo request succeeds
and its audio satisfies the truncation-based duration exactness. -/
theorem duration_exactness_witness :
    (generate_sfx stubEnv demoRequest true []).1.success = true ∧
    ∃ a : Audio,
      (generate_sfx stubEnv demoRequest true []).1.audio_data = some a ∧
      a.length = pyInt (demoRequest.duration * demoRequest.sample_rate) ∧
      (1 ≤ demoRequest.sample_rate →
        |(a.length : ℚ) / (demoRequest.sample_rate : ℚ) -
          demoRequest.duration| < 1 / (demoRequest.sample_rate : ℚ)) :=
  ⟨by decide, duration_exactness stubEnv demoRequest true [] (by decide)⟩

theorem generateTilesAux_fail (env : Env) (p : String) (td : ℚ)
    (s0 : Option ℤ) (sr : ℕ) :
    ∀ (i n start : ℕ), i < n →
      (∀ j, j < i → isOkB (callRun env sr
        ⟨p, min td max_duration_per_request,
          s0.map (fun s => s + ((start + j : ℕ) : ℤ))⟩) = true) →
      isOkB (callRun env sr ⟨p, min td max_duration_per_request,
        s0.map (fun s => s + ((start + i : ℕ) : ℤ))⟩) = false →
      ∃ e, generateTilesAux env p td s0 sr start n =
        (Except.error e, (List.range (i + 1)).map (fun j =>
          ⟨p, min td max_duration_per_request,
            s0.map (fun s => s + ((start + j : ℕ) : ℤ))⟩)) := by
  intro i
  induction i with
  | zero =>
    intro n start hn hok hfail
    cases n with
    | zero => omega
    | succ m =>
      unfold generateTilesAux
      simp only [Nat.add_zero] at hfail
      unfold callRun at hfail
      cases hg : env.genTile p (min td max_duration_per_request)
          (s0.map (fun s => s + (start : ℤ))) with
      | error e =>
        refine ⟨e, ?_⟩
        simp [hg, List.range_succ]
      | ok raw =>
        rw [hg] at hfail
        cases hp : env.processTile raw sr with
        | error e =>
          refine ⟨e, ?_⟩
          simp [hg, hp, List.range_succ]
        | ok tile =>
          dsimp only at hfail
          rw [hp] at hfail
          simp [isOkB] at hfail
  | succ i ih =>
    intro n start hn hok hfail
    cases n with
    | zero => omega
    | succ m =>
      have h0 := hok 0 (Nat.succ_pos i)
      simp only [Nat.add_zero] at h0
      unfold callRun at h0
      cases hg : env.genTile p (min td max_duration_per_request)
          (s0.map (fun s => s + (start : ℤ))) with
      | error e =>
        rw [hg] at h0
        simp [isOkB] at h0
      | ok raw =>
        rw [hg] at h0
        dsimp only at h0
        cases hp : env.processTile raw sr with
        | error e =>
          rw [hp] at h0
          simp [isOkB] at h0
        | ok tile =>
          have hok2 : ∀ j, j < i → isOkB (callRun env sr
              ⟨p, min td max_duration_per_request,
                s0.map (fun s => s + ((start + 1 + j : ℕ) : ℤ))⟩) = true := by
            intro j hj
            have hh := hok (j + 1) (by omega)
            have hidx : (start + (j + 1) : ℕ) = (start + 1 + j : ℕ) := by omega
            rw [hidx] at hh
            exact hh
          have hfail2 : isOkB (callRun env sr
              ⟨p, min td max_duration_per_request,
                s0.map (fun s => s + ((start + 1 + i : ℕ) : ℤ))⟩) = false := by
            have hidx : (start + (i + 1) : ℕ) = (start + 1 + i : ℕ) := by omega
            rw [hidx] at hfail
            exact hfail
          obtain ⟨e, he⟩ := ih m (start + 1) (by omega) hok2 hfail2
          refine ⟨e, ?_⟩
          unfold generateTilesAux
          simp only [hg, hp, he]
          have hr : List.range (i + 1 + 1) =
              0 :: (List.range (i + 1)).map Nat.succ :=
            List.range_succ_eq_map (i + 1)
          rw [hr, List.map_cons, List.map_map]
          simp only [Prod.mk.injEq]
          refine ⟨?_, ?_⟩
          · simp [Except.map]
          · simp only [List.cons.injEq]
            refine ⟨by simp, ?_⟩
            apply List.map_congr_left
            intro a _
            simp only [Function.comp_apply]
            have hidx : (start + 1 + a : ℕ) = (start + Nat.succ a : ℕ) := by
              omega
            rw [hidx]

/-- C6: fail-fast failure semantics.  If the provider-or-decode round for
planned tile `i` of a valid request fails while all earlier tiles succeed,
then the request aborts: the engine issues exactly the provider calls for
tiles 0..i (none for any j > i), writes nothing to the cache, and returns a
structured result with success = false, an error message and no audio
rather than raising past the engine boundary. -/
theorem failure_semantics (env : Env) (request : SFXGenerationRequest)
    (use_cache : Bool) (cache : Cache) (i : ℕ)
    (h1 : 1 ≤ request.duration) (h2 : request.duration ≤ 300)
    (hi : i < tilesNeeded request.duration)
    (hok : ∀ j, j < i →
      isOkB (callRun env request.sample_rate (plannedCall request j)) = true)
    (hfail : isOkB (callRun env request.sample_rate (plannedCall request i))
      = false) :
    (generate_sfx env request use_cache cache).1.success = false ∧
    ((generate_sfx env request use_cache cache).1.error_message).isSome =
      true ∧
    (generate_sfx env request use_cache cache).1.audio_data = none ∧
    (generate_sfx env request use_cache cache).2.1 = cache ∧
    (generate_sfx env request use_cache cache).2.2 =
      (List.range (i + 1)).map (plannedCall request) := by
  have h1n : ¬ request.duration < min_duration := by
    unfold min_duration
    linarith
  have h2n : ¬ max_duration < request.duration := by
    unfold max_duration
    linarith
  rw [generate_sfx_eq_core env request use_cache cache h1n h2n]
  obtain ⟨e, he⟩ := generateTilesAux_fail env request.prompt
    (tileDuration request.duration) request.seed request.sample_rate i
    (tilesNeeded request.duration) 0 hi
    (by
      intro j hj
      have hh := hok j hj
      simp only [plannedCall] at hh
      simpa using hh)
    (by
      have hh := hfail
      simp only [plannedCall] at hh
      simpa using hh)
  simp [generateCore, he, plannedCall]

/-- Witness for C6: the two-tile request (duration 30, seed 42) against the
provider that fails on derived seed 43 — tile 0 succeeds, tile 1 fails, the
request aborts with exactly two provider calls and no cache write. -/
theorem failure_semantics_witness :
    (generate_sfx failSecondEnv twoTileRequest true []).1.success = false ∧
    (generate_sfx failSecondEnv twoTileRequest true []).2.1 = [] ∧
    (generate_sfx failSecondEnv twoTileRequest true []).2.2 =
      (List.range 2).map (plannedCall twoTileRequest) := by
  have h := failure_semantics failSecondEnv twoTileRequest true [] 1
    (by decide) (by decide) (by decide) (by decide) (by decide)
  exact ⟨h.1, h.2.2.2.1, h.2.2.2.2⟩

theorem npMul_of_eq_length (a b : Audio) (h : a.length = b.length) :
    npMul a b = Except.ok (List.zipWith (· * ·) a b) := by
  unfold npMul npBroadcast
  rw [if_pos h]

theorem npAdd_of_eq_length (a b : Audio) (h : a.length = b.length) :
    npAdd a b = Except.ok (List.zipWith (· + ·) a b) := by
  unfold npAdd npBroadcast
  rw [if_pos h]

theorem npLinspace_length (s t : ℚ) (n : ℕ) : (npLinspace s t n).length = n := by
  cases n with
  | zero => rfl
  | succ m =>
    cases m with
    | zero => rfl
    | succ m2 =>
      rw [show npLinspace s t (m2 + 2) = (List.range (m2 + 2)).map
          (fun (i : ℕ) => s + (t - s) * (i : ℚ) / ((m2 : ℚ) + 1)) from rfl,
        List.length_map, List.length_range]

theorem pyLastN_length (k : ℕ) (a : Audio) (hk : 1 ≤ k)
    (hle : k ≤ a.length) : (pyLastN k a).length = k := by
  unfold pyLastN
  rw [if_neg (by omega)]
  simp only [List.length_drop]
  omega

theorem pyMidSlice_length (k : ℕ) (a : Audio) (hk : 1 ≤ k) :
    (pyMidSlice k a).length = a.length - 2 * k := by
  unfold pyMidSlice
  rw [if_neg (by omega)]
  simp only [List.length_take, List.length_drop]
  omega

/-- C8 counterexample: the crossfade threshold is
`int(crossfade_duration * sample_rate)` (truncation, line 219), not
`round(...)`.  With crossfadeDuration 0.9 and sample rate 4 the product is
3.6: the claim's threshold is round(3.6) = 4, so a 3-sample segment is
"shorter than crossfadeSamples" and must be plain-concatenated, but the
code truncates the threshold to 3 and applies the crossfade, producing a
blended buffer instead of the concatenation. -/
theorem crossfade_threshold_counterexample :
    round ((9/10 : ℚ) * 4) = (4 : ℤ) ∧
    ([1, 1, 1] : Audio).length < 4 ∧
    _create_crossfade [1, 1, 1] [2, 2, 2, 2] (9/10) 4 =
      Except.ok [1, 3/2, 2, 2] ∧
    _create_crossfade [1, 1, 1] [2, 2, 2, 2] (9/10) 4 ≠
      Except.ok (([1, 1, 1] ++ [2, 2, 2, 2] : Audio)) := by
  decide

/-- C8 amended: short-segment crossfade fallback with the truncated
threshold.  For a nonnegative crossfade duration, whenever either segment
has fewer samples than `crossfadeSamples = int(crossfadeDuration *
sampleRate)` (truncation, which on these nonnegative products is the
floor), the two segments are plain-concatenated with no fade applied, and
this path returns normally — it never raises. -/
theorem crossfade_short_fallback (a b : Audio) (cf : ℚ) (sr : ℕ)
    (_h0 : 0 ≤ cf)
    (h : a.length < pyInt (cf * sr) ∨ b.length < pyInt (cf * sr)) :
    _create_crossfade a b cf sr = Except.ok (a ++ b) := by
  simp only [_create_crossfade]
  rw [if_pos h]

/-- Witness for the amended C8 theorem: a one-sample segment against the
2-sample threshold of a 0.5 s crossfade at 4 Hz. -/
theorem crossfade_short_fallback_witness :
    (0 : ℚ) ≤ 1/2 ∧
    (([1] : Audio).length < pyInt ((1/2 : ℚ) * 4) ∨
      ([1, 2] : Audio).length < pyInt ((1/2 : ℚ) * 4)) ∧
    _create_crossfade [1] [1, 2] (1/2) 4 = Except.ok [1, 1, 2] := by
  refine ⟨by norm_num, Or.inl (by decide), ?_⟩
  exact crossfade_short_fallback [1] [1, 2] (1/2) 4 (by norm_num)
    (Or.inl (by decide))

/-- C9 counterexample: when `crossfadeSamples = int(crossfadeDuration *
sampleRate)` is 0 (e.g. 0.1 s at a 1 Hz rate) and the buffer has at least
two samples, the buffer is not below the `2 * crossfadeSamples` threshold,
so the claim's "otherwise" branch promises a successful output exactly 0
samples shorter; but `audio[-0:]` is the whole buffer and multiplying it
with the empty fade curve raises a numpy broadcast `ValueError`, so the
loop wrapper raises instead of returning. -/
theorem loop_wrapper_zero_crossfade_counterexample :
    pyInt ((1/10 : ℚ) * 1) = 0 ∧
    ¬ (([1, 2] : Audio).length < 2 * 0) ∧
    _make_loopable [1, 2] (1/10) 1 =
      Except.error "operands could not be broadcast together" := by
  decide

/-- C9 amended: loop wrapper construction, for positive crossfade sample
counts.  With `crossfadeSamples = int(crossfadeDuration * sampleRate) ≥ 1`:
a buffer shorter than `2 * crossfadeSamples` is returned unchanged;
otherwise the output is the element-wise sum of the fade-in-ramped first
`crossfadeSamples` and the fade-out-ramped last `crossfadeSamples`, placed
at the start and followed by the untouched middle portion, and it is
exactly `crossfadeSamples` samples shorter than the input.  (When
`crossfadeSamples = 0` and the buffer has two or more samples the code
instead raises a broadcast error.) -/
theorem make_loopable_amended (audio : Audio) (cf : ℚ) (sr : ℕ)
    (_h0 : 0 ≤ cf) (hk : 1 ≤ pyInt (cf * sr)) :
    (audio.length < pyInt (cf * sr) * 2 →
      _make_loopable audio cf sr = Except.ok audio) ∧
    (pyInt (cf * sr) * 2 ≤ audio.length →
      ∃ out : Audio, _make_loopable audio cf sr = Except.ok out ∧
        out = List.zipWith (· + ·)
            (List.zipWith (· * ·) (pyTake (pyInt (cf * sr)) audio)
              (npLinspace 0 1 (pyInt (cf * sr))))
            (List.zipWith (· * ·) (pyLastN (pyInt (cf * sr)) audio)
              (npLinspace 1 0 (pyInt (cf * sr)))) ++
          pyMidSlice (pyInt (cf * sr)) audio ∧
        out.length = audio.length - pyInt (cf * sr)) := by
  constructor
  · intro hlt
    simp only [_make_loopable]
    rw [if_pos hlt]
  · intro hge
    have hkle : pyInt (cf * sr) ≤ audio.length := by omega
    have l1 : (pyTake (pyInt (cf * sr)) audio).length = pyInt (cf * sr) := by
      simp only [pyTake, List.length_take]
      omega
    have l2 : (npLinspace 0 1 (pyInt (cf * sr))).length = pyInt (cf * sr) :=
      npLinspace_length 0 1 _
    have l3 : (pyLastN (pyInt (cf * sr)) audio).length = pyInt (cf * sr) :=
      pyLastN_length _ audio hk hkle
    have l4 : (npLinspace 1 0 (pyInt (cf * sr))).length = pyInt (cf * sr) :=
      npLinspace_length 1 0 _
    simp only [_make_loopable]
    rw [if_neg (by omega)]
    rw [npMul_of_eq_length _ _ (by rw [l1, l2]),
      npMul_of_eq_length _ _ (by rw [l3, l4])]
    dsimp only
    rw [npAdd_of_eq_length _ _
      (by simp only [List.length_zipWith, l1, l2, l3, l4])]
    dsimp only
    refine ⟨_, rfl, rfl, ?_⟩
    simp only [List.length_append, List.length_zipWith, l1, l2, l3, l4,
      pyMidSlice_length _ audio hk]
    omega

/-- Witness for the amended C9 theorem: both branches at a 2-sample
crossfade (0.5 s at 4 Hz) — a 4-sample buffer is wrapped to
`[3, 2]` (2 samples shorter), a 1-sample buffer is returned unchanged. -/
theorem make_loopable_amended_witness :
    (0 : ℚ) ≤ 1/2 ∧ 1 ≤ pyInt ((1/2 : ℚ) * 4) ∧
    _make_loopable [1, 2, 3, 4] (1/2) 4 = Except.ok [3, 2] ∧
    _make_loopable [1] (1/2) 4 = Except.ok [1] := by
  have h := make_loopable_amended [1, 2, 3, 4] (1/2) 4 (by norm_num)
    (by decide)
  have h2 := make_loopable_amended [1] (1/2) 4 (by norm_num) (by decide)
  refine ⟨by norm_num, by decide, ?_, ?_⟩
  · obtain ⟨out, ho, hf, -⟩ := h.2 (by decide)
    rw [ho, hf]
    decide
  · exact h2.1 (by decide)

/-- Witness for C7: the seeded demo request, compared across a cold cache
with caching on and caching off. -/
theorem synthesis_deterministic_witness :
    demoRequest.seed.isSome = true ∧
    (generate_sfx stubEnv demoRequest true []).1.audio_data =
    (generate_sfx stubEnv demoRequest false []).1.audio_data :=
  ⟨by decide, synthesis_deterministic stubEnv demoRequest true false [] []
    (by decide)⟩

end ElevenLabsSFX
